import Mathlib

/-!
Shallow embedding of `src/camera.py` (camera-stream-capture).

The program has two capture modes selected lexically from the source
address: a continuous-stream decimation loop (`capture_stream`, the else
branch) and a snapshot polling loop (`capture_snapshot_stream`).  Both
share the session/frame naming convention and a `save_frames` switch.

Modelling conventions:
* Wall-clock instants returned by `time.time()` are rationals (`ℚ`).
* The formatted `datetime.now().strftime(...)` string observed at an
  instant is carried inside the input events, since the model does not
  compute calendars.
* External effects are explicit: directory creations and file writes are
  accumulated in lists, fetches and frame reads are consumed from input
  event lists, and `cv2.waitKey` quit answers are carried in the events.
* The end of an input event list models the external termination of the
  observation (process interrupt); a `readFail` event models `cap.read()`
  returning `ret = False`.
-/

/-- Boolean test that `p` is a prefix of `l` (Python `str.startswith` on
character lists). -/
def prefOf : List Char → List Char → Bool
  | [], _ => true
  | _ :: _, [] => false
  | a :: as, b :: bs => a == b && prefOf as bs

/-- Boolean test that `n` occurs as a contiguous substring of `l`
(Python's `n in l` on strings). -/
def subOf (n : List Char) : List Char → Bool
  | [] => prefOf n []
  | c :: ls => prefOf n (c :: ls) || subOf n ls

/-- Boolean test that `l` ends with `p` (Python `str.endswith` on
character lists). -/
def endsW (l p : List Char) : Bool :=
  prefOf p.reverse l.reverse

/-- The characters of `s` lower-cased (Python `str.lower()`; the model
uses ASCII lowering, which agrees with Python on the ASCII addresses in
play). -/
def lowerData (s : String) : List Char :=
  s.data.map Char.toLower

/-- Verdict of the source classifier (spec §4.1). -/
inductive SourceKind
  | snapshot
  | continuousStream
deriving DecidableEq

/-- Line 30 of `camera.py`:
`is_snapshot = stream_url.endswith('.jpg') or 'snap' in stream_url.lower()`. -/
def is_snapshot (stream_url : String) : Bool :=
  endsW stream_url.data ".jpg".data || subOf "snap".data (lowerData stream_url)

/-- The classifier as an enum, deciding which loop `capture_stream`
dispatches to (lines 32 and 35). -/
def classify (stream_url : String) : SourceKind :=
  if is_snapshot stream_url then .snapshot else .continuousStream

/-- The path component of a URL, used only to state the claim that the
classifier looks at the URL's path: everything from the first `/` after
the `://` scheme separator (if any) up to the first `?` or `#`.  The
source itself has no such computation. -/
def afterSchemeAux : List Char → Option (List Char)
  | ':' :: '/' :: '/' :: rest => some rest
  | _ :: rest => afterSchemeAux rest
  | [] => none

/-- The path component of a URL (see `afterSchemeAux`). -/
def urlPath (s : String) : String :=
  let afterScheme := (afterSchemeAux s.data).getD s.data
  let afterHost := afterScheme.dropWhile (fun c => c != '/')
  ⟨afterHost.takeWhile (fun c => c != '?' && c != '#')⟩

/-- Lines 21–23: `os.path.join("captured_frames", f"session_{session_timestamp}")`. -/
def output_folder (session_timestamp : String) : String :=
  "captured_frames" ++ "/" ++ ("session_" ++ session_timestamp)

/-- Lines 64 and 111: `f"{output_folder}/frame_{frame_count}_{timestamp}.jpg"`. -/
def framePath (outDir : String) (frame_count : ℕ) (timestamp : String) : String :=
  outDir ++ "/frame_" ++ toString frame_count ++ "_" ++ timestamp ++ ".jpg"

/-- Lines 20–27: with `save_frames` on, the session directory is created
at entry when `os.path.exists` says it is missing; the list records the
`os.makedirs` calls performed. -/
def entryDirs (save_frames : Bool) (dirExists : Bool) (session_timestamp : String) : List String :=
  if save_frames then
    if dirExists then [] else [output_folder session_timestamp]
  else []

/-- One observed iteration of the continuous loop: either `cap.read()`
fails (`ret = False`, line 52) or it yields a frame at wall-clock `t`
whose `datetime.now()` formats as `ts`, with `quit` telling whether
`cv2.waitKey(1)` reports the `q` key (line 77) during that iteration. -/
inductive ReadEvent
  | readFail
  | frame (t : ℚ) (ts : String) (quit : Bool)

/-- State of the continuous-stream loop (lines 46–79): the mutable
variables of the source plus the accumulated observable effects:
captured `(frame_count, time)` pairs, written file names, and a count of
read iterations entered. -/
structure ContState where
  last_capture_time : ℚ
  frame_count : ℕ
  captures : List (ℕ × ℚ)
  files : List String
  iterations : ℕ

/-- Lines 46–47: `last_capture_time = 0`, `frame_count = 0`. -/
def contInit : ContState := ⟨0, 0, [], [], 0⟩

/-- Lines 56–70: on a successful read at instant `t`, capture the frame
when `current_time - last_capture_time >= interval`, writing the file
when `save_frames` is on; otherwise leave the state unchanged. -/
def contStep (interval : ℚ) (save_frames : Bool) (outDir : String)
    (s : ContState) (t : ℚ) (ts : String) : ContState :=
  if interval ≤ t - s.last_capture_time then
    { last_capture_time := t
      frame_count := s.frame_count + 1
      captures := s.captures ++ [(s.frame_count + 1, t)]
      files := if save_frames then s.files ++ [framePath outDir (s.frame_count + 1) ts] else s.files
      iterations := s.iterations }
  else s

/-- The `while True` loop of lines 49–79.  A `readFail` event breaks out
immediately (line 54) and the remaining events are never read; a frame
event is decimated by `contStep` and then the `q`-key check of line 77
may break the loop.  The end of the event list ends the observation. -/
def contRun (interval : ℚ) (save_frames : Bool) (outDir : String) (s : ContState) :
    List ReadEvent → ContState
  | [] => s
  | .readFail :: _ => { s with iterations := s.iterations + 1 }
  | .frame t ts q :: rest =>
      let s' := contStep interval save_frames outDir { s with iterations := s.iterations + 1 } t ts
      if q then s' else contRun interval save_frames outDir s' rest

/-- A frame source that never fails and where the user never quits:
frames arrive at the given wall-clock instants. -/
def framesOnly (ts : List ℚ) : List ReadEvent :=
  ts.map (fun t => ReadEvent.frame t "" false)

/-- One observed iteration of the snapshot loop (lines 97–130): either
`requests.get` raises (`RequestException`, line 129), or a response
arrives with the given status code, a flag telling whether
`cv2.imdecode` yields a frame, the formatted capture timestamp, and the
`cv2.waitKey(100)` quit answer of line 121 for that iteration. -/
inductive SnapEvent
  | exn
  | response (status : ℕ) (decodeOk : Bool) (ts : String) (quit : Bool)

/-- State of the snapshot loop (lines 93–134): `frame_count`, the
captured sequence numbers, written file names, how many iterations ran
the `cv2.waitKey(100)` quit check, and how many iterations ran at all. -/
structure SnapState where
  frame_count : ℕ
  captures : List ℕ
  files : List String
  quitChecks : ℕ
  iterations : ℕ

/-- Line 93: `frame_count = 0`. -/
def snapInit : SnapState := ⟨0, [], [], 0, 0⟩

/-- The polling loop of `capture_snapshot_stream` (lines 96–134).  The
fetch and the sleep have no observable effect beyond consuming one
event.  Note the quit check of line 121 runs only inside the
`if frame is not None` and `if show_live` branches: failed iterations
fall through to the sleep without any quit check.  The end of the event
list models `KeyboardInterrupt`. -/
def capture_snapshot_stream (save_frames show_live : Bool) (outDir : String) (s : SnapState) :
    List SnapEvent → SnapState
  | [] => s
  | e :: rest =>
      let s₀ : SnapState := { s with iterations := s.iterations + 1 }
      match e with
      | .exn => capture_snapshot_stream save_frames show_live outDir s₀ rest
      | .response status decodeOk ts q =>
          if status = 200 then
            if decodeOk then
              let n := s₀.frame_count + 1
              let s₁ : SnapState :=
                { s₀ with
                  frame_count := n
                  captures := s₀.captures ++ [n]
                  files := if save_frames then s₀.files ++ [framePath outDir n ts] else s₀.files }
              if show_live then
                let s₂ : SnapState := { s₁ with quitChecks := s₁.quitChecks + 1 }
                if q then s₂ else capture_snapshot_stream save_frames show_live outDir s₂ rest
              else capture_snapshot_stream save_frames show_live outDir s₁ rest
            else capture_snapshot_stream save_frames show_live outDir s₀ rest
          else capture_snapshot_stream save_frames show_live outDir s₀ rest

/-- The external world a run interacts with: whether the output
directory already exists (line 25), whether `cv2.VideoCapture` opens
(line 40), and the event streams feeding whichever loop runs. -/
structure WorldEnv where
  dirExists : Bool
  openOk : Bool
  contEvents : List ReadEvent
  snapEvents : List SnapEvent

/-- How a run of the entry point ends, with its observable effects.
`unboundLocal` models the Python `UnboundLocalError` raised at line 34
when `output_folder` is referenced without having been assigned (it is
assigned only under `if save_frames:` at lines 20–27). -/
inductive RunOutcome
  | unboundLocal
  | snap (dirs : List String) (final : SnapState)
  | openFailure (dirs : List String)
  | cont (dirs : List String) (final : ContState)

/-- Directories created by a run. -/
def RunOutcome.dirsCreated : RunOutcome → List String
  | .unboundLocal => []
  | .snap d _ => d
  | .openFailure d => d
  | .cont d _ => d

/-- Files written by a run. -/
def RunOutcome.filesWritten : RunOutcome → List String
  | .unboundLocal => []
  | .snap _ s => s.files
  | .openFailure _ => []
  | .cont _ s => s.files

/-- Total frames captured by a run (the count reported at lines 84 and
140; `0` for runs whose loop never starts). -/
def RunOutcome.totalFrames : RunOutcome → ℕ
  | .unboundLocal => 0
  | .snap _ s => s.frame_count
  | .openFailure _ => 0
  | .cont _ s => s.frame_count

/-- Wall-clock instants of the frames captured by a run (meaningful for
the continuous mode, whose capture decision reads the clock). -/
def RunOutcome.capturedTimes : RunOutcome → List ℚ
  | .cont _ s => s.captures.map Prod.snd
  | _ => []

/-- The entry point `capture_stream` (lines 8–84): create the session
directory when `save_frames` is on (lines 20–27), classify the address
(line 30), then dispatch.  The snapshot branch passes `output_folder`
(line 34), which is unbound when `save_frames` is off; the continuous
branch returns at once when the stream does not open (lines 40–42) and
otherwise runs the decimation loop. -/
def capture_stream (stream_url : String) (interval : ℚ) (save_frames show_live : Bool)
    (session_timestamp : String) (env : WorldEnv) : RunOutcome :=
  let dirs := entryDirs save_frames env.dirExists session_timestamp
  if is_snapshot stream_url then
    if save_frames then
      .snap dirs (capture_snapshot_stream save_frames show_live
        (output_folder session_timestamp) snapInit env.snapEvents)
    else .unboundLocal
  else
    if env.openOk then
      .cont dirs (contRun interval save_frames
        (output_folder session_timestamp) contInit env.contEvents)
    else .openFailure dirs

/-- Spec-worded decimation helper (§8.3 of the spec): after a capture at
instant `prev`, keep exactly the frames whose instant minus the
previously captured instant is at least `T`. -/
def specDecimate (T : ℚ) (prev : ℚ) : List ℚ → List ℚ
  | [] => []
  | t :: ts => if T ≤ t - prev then t :: specDecimate T t ts else specDecimate T prev ts

/-- Spec-worded captured-frame instants (§8.3 of the spec): the first
available frame is always captured, and afterwards exactly the frames
spaced at least `T` from the previously captured one are kept. -/
def specCapturedTimes (T : ℚ) : List ℚ → List ℚ
  | [] => []
  | t :: ts => t :: specDecimate T t ts

theorem prefOf_iff (p : List Char) : ∀ l, prefOf p l = true ↔ ∃ t, l = p ++ t := by
  induction p with
  | nil => intro l; simp [prefOf]
  | cons a as ih =>
    intro l
    cases l with
    | nil => simp [prefOf]
    | cons b bs =>
      rw [prefOf, Bool.and_eq_true, beq_iff_eq, ih]
      constructor
      · rintro ⟨rfl, t, rfl⟩; exact ⟨t, rfl⟩
      · rintro ⟨t, ht⟩
        injection ht with h1 h2
        exact ⟨h1.symm, t, h2⟩

theorem endsW_iff (l p : List Char) : endsW l p = true ↔ ∃ a, l = a ++ p := by
  rw [endsW, prefOf_iff]
  constructor
  · rintro ⟨t, ht⟩
    refine ⟨t.reverse, ?_⟩
    have h := congrArg List.reverse ht
    simpa using h
  · rintro ⟨a, rfl⟩
    exact ⟨a.reverse, by simp⟩

theorem subOf_iff (n : List Char) : ∀ l, subOf n l = true ↔ ∃ a b, l = a ++ n ++ b := by
  intro l
  induction l with
  | nil =>
    rw [subOf, prefOf_iff]
    constructor
    · rintro ⟨t, ht⟩
      rcases List.append_eq_nil.mp ht.symm with ⟨rfl, rfl⟩
      exact ⟨[], [], rfl⟩
    · rintro ⟨a, b, h⟩
      rcases List.append_eq_nil.mp h.symm with ⟨h1, rfl⟩
      rcases List.append_eq_nil.mp h1 with ⟨rfl, rfl⟩
      exact ⟨[], rfl⟩
  | cons c ls ih =>
    rw [subOf, Bool.or_eq_true, prefOf_iff, ih]
    constructor
    · rintro (⟨t, ht⟩ | ⟨a, b, rfl⟩)
      · exact ⟨[], t, by simpa using ht⟩
      · exact ⟨c :: a, b, by simp⟩
    · rintro ⟨a, b, h⟩
      cases a with
      | nil => exact Or.inl ⟨b, by simpa using h⟩
      | cons a' as' =>
        injection h with h1 h2
        exact Or.inr ⟨as', b, by simpa using h2⟩

theorem classify_eq_snapshot_iff (s : String) :
    classify s = SourceKind.snapshot ↔ is_snapshot s = true := by
  rw [classify]
  split <;> simp_all

/-- C2: the claim states classification is `Snapshot` if and only if the
address's path ends in `.jpg` or the address contains `snap` in any
letter case.  This fails on the code at `http://h/a.jpg?x=1`: its path
`/a.jpg` ends in `.jpg`, it does not contain `snap`, yet the code's
suffix test looks at the whole address string (which ends in `1`), so
the classifier answers `ContinuousStream`. -/
theorem C2_counterexample :
    ¬ (classify "http://h/a.jpg?x=1" = SourceKind.snapshot ↔
        (∃ a, (urlPath "http://h/a.jpg?x=1").data = a ++ ".jpg".data) ∨
        ∃ a b, lowerData "http://h/a.jpg?x=1" = a ++ "snap".data ++ b) := by
  intro h
  have hs : classify "http://h/a.jpg?x=1" = SourceKind.snapshot :=
    h.mpr (Or.inl ⟨"/a".data, rfl⟩)
  exact absurd hs (by decide)

/-- C2 (amended): classification is `Snapshot` if and only if the whole
address string ends in `.jpg` (case-sensitive) or the address contains
the substring `snap` in any letter case; the two examples of the claim
classify as stated. -/
theorem C2_amended :
    (∀ s : String, classify s = SourceKind.snapshot ↔
      (∃ a, s.data = a ++ ".jpg".data) ∨ ∃ a b, lowerData s = a ++ "snap".data ++ b) ∧
    classify "http://h/webcapture.jpg?command=snap" = SourceKind.snapshot ∧
    classify "rtsp://h/live" = SourceKind.continuousStream := by
  refine ⟨fun s => ?_, by decide, by decide⟩
  rw [classify_eq_snapshot_iff, is_snapshot, Bool.or_eq_true, endsW_iff, subOf_iff]

/-- C8: for a session created at `2024-01-02_03-04-05` and a capture at
`2024-01-02_03-05-05` with sequence number 7, the produced file path is
exactly
`captured_frames/session_2024-01-02_03-04-05/frame_7_2024-01-02_03-05-05.jpg`. -/
theorem C8_naming :
    framePath (output_folder "2024-01-02_03-04-05") 7 "2024-01-02_03-05-05"
      = "captured_frames/session_2024-01-02_03-04-05/frame_7_2024-01-02_03-05-05.jpg" := by
  rfl

/-- C3 fails on the code for snapshot mode: with `save_frames = false`
and any snapshot-classified address, the entry point raises
`UnboundLocalError` at line 34 (`output_folder` is assigned only under
`if save_frames:`), so no capture ever happens and the counter never
increments, where the claim promises normal counting with zero files.
This theorem evaluates the model at such a failing input: one fetch
outcome is available, yet the run dies with the unbound-variable
error. -/
theorem C3_snapshot_crash :
    capture_stream "http://h/snap" 30 false true "S"
      ⟨false, true, [], [SnapEvent.exn, SnapEvent.response 200 true "t1" false]⟩
      = RunOutcome.unboundLocal := by
  rfl

/-- C10: for every address that classifies as `Snapshot`, calling the
entry point with `save_frames = false` hits the unbound `output_folder`
at line 34 before any fetch is attempted: the run ends with the
unbound-variable error whatever fetch outcomes the environment holds. -/
theorem C10_unbound (url : String) (T : ℚ) (live : Bool) (S : String) (env : WorldEnv)
    (h : classify url = SourceKind.snapshot) :
    capture_stream url T false live S env = RunOutcome.unboundLocal := by
  rw [classify_eq_snapshot_iff] at h
  simp [capture_stream, h]

/-- Witness for C10 at a concrete input: a snapshot-classified address
with `save_frames = false`. -/
theorem C10_witness :
    classify "http://h/snap" = SourceKind.snapshot ∧
    capture_stream "http://h/snap" 30 false true "S"
      ⟨false, true, [], [SnapEvent.response 200 true "t" false]⟩ = RunOutcome.unboundLocal :=
  ⟨by decide, C10_unbound "http://h/snap" 30 true "S" _ (by decide)⟩

/-- C7: in snapshot mode, the fetch outcomes
`[TransportFailure, BadStatus, DecodeFailure, Success]` yield exactly
one captured frame with sequence number 1; all four iterations run (the
loop continues after each of the three failures rather than
terminating). -/
theorem C7_resilience :
    capture_snapshot_stream true true "d" snapInit
      [SnapEvent.exn, SnapEvent.response 500 true "t1" false,
       SnapEvent.response 200 false "t2" false, SnapEvent.response 200 true "t3" false]
      = { frame_count := 1, captures := [1], files := [framePath "d" 1 "t3"],
          quitChecks := 1, iterations := 4 } := by
  rfl

/-- C4 fails on the code: the claim says every snapshot-mode iteration
with preview enabled checks for a quit signal, including iterations that
end in a transport failure.  In the code the `cv2.waitKey(100)` check
sits inside the success branch (lines 118–123), so a transport-failure
iteration runs no quit check at all: one iteration runs, zero quit
checks happen. -/
theorem C4_counterexample :
    (capture_snapshot_stream true true "d" snapInit [SnapEvent.exn]).iterations = 1 ∧
    (capture_snapshot_stream true true "d" snapInit [SnapEvent.exn]).quitChecks = 0 :=
  ⟨rfl, rfl⟩

theorem snap_quitChecks_eq (save : Bool) (d : String) :
    ∀ (evs : List SnapEvent) (s : SnapState),
      (capture_snapshot_stream save true d s evs).quitChecks + s.frame_count
        = (capture_snapshot_stream save true d s evs).frame_count + s.quitChecks := by
  intro evs
  induction evs with
  | nil => intro s; exact Nat.add_comm _ _
  | cons e rest ih =>
    intro s
    cases e with
    | exn =>
      have h := ih ⟨s.frame_count, s.captures, s.files, s.quitChecks, s.iterations + 1⟩
      simpa [capture_snapshot_stream] using h
    | response status decodeOk ts q =>
      by_cases h2 : status = 200
      · subst h2
        cases hd : decodeOk with
        | false =>
          have h := ih ⟨s.frame_count, s.captures, s.files, s.quitChecks, s.iterations + 1⟩
          simpa [capture_snapshot_stream] using h
        | true =>
          cases hq : q with
          | true =>
            simp [capture_snapshot_stream]
            omega
          | false =>
            have h := ih ⟨s.frame_count + 1, s.captures ++ [s.frame_count + 1],
              (if save then s.files ++ [framePath d (s.frame_count + 1) ts] else s.files),
              s.quitChecks + 1, s.iterations + 1⟩
            simp [capture_snapshot_stream] at h ⊢
            omega
      · have h := ih ⟨s.frame_count, s.captures, s.files, s.quitChecks, s.iterations + 1⟩
        simp [capture_snapshot_stream, h2] at h ⊢
        omega

/-- C4 (amended): in snapshot mode with preview enabled, the quit check
runs exactly on the iterations that successfully capture a frame — the
number of quit checks equals the number of captured frames, so failure
iterations (transport failure, bad status, decode failure) skip directly
to the sleep with no quit check — and when the user quits during such a
check the loop terminates at once, the remaining outcomes never being
fetched, with `frame_count` holding the reported total. -/
theorem C4_amended (save : Bool) (d : String) :
    (∀ evs : List SnapEvent,
        (capture_snapshot_stream save true d snapInit evs).quitChecks
          = (capture_snapshot_stream save true d snapInit evs).frame_count) ∧
    (∀ (s : SnapState) (ts : String) (rest : List SnapEvent),
        capture_snapshot_stream save true d s (SnapEvent.response 200 true ts true :: rest)
          = capture_snapshot_stream save true d s [SnapEvent.response 200 true ts true]) := by
  constructor
  · intro evs
    have h := snap_quitChecks_eq save d evs snapInit
    simpa [snapInit] using h
  · intro s ts rest
    rfl

/-- C5 fails on the code as stated: the claim says the session directory
is created lazily, before the first frame write.  The code creates it
eagerly at entry (lines 20–27), so in a run that writes no frame at all
— here persistence on, the directory missing, and the stream failing to
open — the directory is still created: one creation happens while the
list of written files stays empty. -/
theorem C5_counterexample :
    (capture_stream "rtsp://h/live" 30 true true "S"
        ⟨false, false, [], []⟩).dirsCreated = ["captured_frames/session_S"] ∧
    (capture_stream "rtsp://h/live" 30 true true "S"
        ⟨false, false, [], []⟩).filesWritten = [] :=
  ⟨rfl, rfl⟩

/-- C5 (amended): when persistence is enabled the session output
directory is created exactly once, eagerly at session start — hence
before any frame write, but even in runs that never write a frame — and
only if it does not already exist; when the directory exists no creation
is attempted, so an already-existing directory causes no error; with
persistence off nothing is created. -/
theorem C5_amended (url : String) (T : ℚ) (save live : Bool) (S : String) (env : WorldEnv) :
    (capture_stream url T save live S env).dirsCreated = entryDirs save env.dirExists S ∧
    entryDirs save true S = [] ∧
    (entryDirs save env.dirExists S).length ≤ 1 := by
  refine ⟨?_, ?_, ?_⟩
  · rw [capture_stream]
    by_cases h : is_snapshot url <;> by_cases hs : save = true <;>
      by_cases ho : env.openOk = true <;>
      simp [h, hs, ho, RunOutcome.dirsCreated, entryDirs]
  · cases save <;> simp [entryDirs]
  · cases save <;> cases henv : env.dirExists <;> simp [entryDirs]

/-- C9: in continuous-stream mode an open failure is fatal — the run
ends at once as `openFailure`, the loop never starts and zero frames are
reported — and a frame-read failure is likewise fatal for the run: the
loop ends on the failing read without consuming (retrying) any further
read, leaving the frame count captured so far to be reported. -/
theorem C9_fatal (url : String) (T : ℚ) (save live : Bool) (S d : String) (env : WorldEnv)
    (hc : classify url = SourceKind.continuousStream) (ho : env.openOk = false) :
    (capture_stream url T save live S env
        = RunOutcome.openFailure (entryDirs save env.dirExists S) ∧
      (capture_stream url T save live S env).totalFrames = 0) ∧
    ∀ (s : ContState) (rest : List ReadEvent),
      contRun T save d s (ReadEvent.readFail :: rest)
        = { s with iterations := s.iterations + 1 } := by
  have h : is_snapshot url = false := by
    by_cases h : is_snapshot url = true
    · rw [classify, if_pos h] at hc
      exact absurd hc (by simp)
    · simpa using h
  have hrun : capture_stream url T save live S env
      = RunOutcome.openFailure (entryDirs save env.dirExists S) := by
    simp [capture_stream, h, ho]
  exact ⟨⟨hrun, by rw [hrun]; rfl⟩, fun s rest => rfl⟩

/-- Witness for C9 at a concrete input: a continuous-stream address
and an environment whose stream fails to open. -/
theorem C9_witness :
    classify "rtsp://h/live" = SourceKind.continuousStream ∧
    (⟨false, false, [], []⟩ : WorldEnv).openOk = false ∧
    ((capture_stream "rtsp://h/live" 30 true true "S" ⟨false, false, [], []⟩
        = RunOutcome.openFailure (entryDirs true false "S") ∧
      (capture_stream "rtsp://h/live" 30 true true "S" ⟨false, false, [], []⟩).totalFrames = 0) ∧
     ∀ (s : ContState) (rest : List ReadEvent),
       contRun 30 true "d" s (ReadEvent.readFail :: rest)
         = { s with iterations := s.iterations + 1 }) :=
  ⟨by decide, rfl,
    C9_fatal "rtsp://h/live" 30 true true "S" "d" ⟨false, false, [], []⟩ (by decide) rfl⟩

theorem contRun_seq_inv (T : ℚ) (save : Bool) (d : String) :
    ∀ (evs : List ReadEvent) (s : ContState),
      s.captures.map Prod.fst = List.range' 1 s.frame_count →
      (contRun T save d s evs).captures.map Prod.fst
        = List.range' 1 (contRun T save d s evs).frame_count := by
  intro evs
  induction evs with
  | nil => intro s h; exact h
  | cons e rest ih =>
    intro s h
    cases e with
    | readFail => simpa [contRun] using h
    | frame t ts q =>
      have hstep :
          (contStep T save d ⟨s.last_capture_time, s.frame_count, s.captures, s.files,
              s.iterations + 1⟩ t ts).captures.map Prod.fst
            = List.range' 1 (contStep T save d ⟨s.last_capture_time, s.frame_count, s.captures,
                s.files, s.iterations + 1⟩ t ts).frame_count := by
        rw [contStep]
        by_cases hc : T ≤ t - s.last_capture_time
        · simp only [hc, if_true, List.map_append, h, List.range'_concat]
          simp [Nat.add_comm]
        · simpa [hc] using h
      cases q with
      | true => simpa [contRun, contStep] using hstep
      | false =>
        have h2 := ih _ hstep
        simpa [contRun, contStep] using h2

theorem snap_seq_inv (save live : Bool) (d : String) :
    ∀ (evs : List SnapEvent) (s : SnapState),
      s.captures = List.range' 1 s.frame_count →
      (capture_snapshot_stream save live d s evs).captures
        = List.range' 1 (capture_snapshot_stream save live d s evs).frame_count := by
  intro evs
  induction evs with
  | nil => intro s h; exact h
  | cons e rest ih =>
    intro s h
    cases e with
    | exn =>
      have h2 := ih ⟨s.frame_count, s.captures, s.files, s.quitChecks, s.iterations + 1⟩ h
      simpa [capture_snapshot_stream] using h2
    | response status decodeOk ts q =>
      by_cases h200 : status = 200
      · subst h200
        cases hd : decodeOk with
        | false =>
          have h2 := ih ⟨s.frame_count, s.captures, s.files, s.quitChecks, s.iterations + 1⟩ h
          simpa [capture_snapshot_stream] using h2
        | true =>
          have hcap : s.captures ++ [s.frame_count + 1] = List.range' 1 (s.frame_count + 1) := by
            rw [h, List.range'_concat]
            simp [Nat.add_comm]
          cases live with
          | false =>
            have h2 := ih ⟨s.frame_count + 1, s.captures ++ [s.frame_count + 1],
              (if save then s.files ++ [framePath d (s.frame_count + 1) ts] else s.files),
              s.quitChecks, s.iterations + 1⟩ hcap
            simpa [capture_snapshot_stream] using h2
          | true =>
            cases hq : q with
            | true => simpa [capture_snapshot_stream] using hcap
            | false =>
              have h2 := ih ⟨s.frame_count + 1, s.captures ++ [s.frame_count + 1],
                (if save then s.files ++ [framePath d (s.frame_count + 1) ts] else s.files),
                s.quitChecks + 1, s.iterations + 1⟩ hcap
              simpa [capture_snapshot_stream] using h2
      · have h2 := ih ⟨s.frame_count, s.captures, s.files, s.quitChecks, s.iterations + 1⟩ h
        simp only [capture_snapshot_stream] at h2 ⊢
        simpa [h200] using h2

/-- C6: across any single run, in either mode, the captured-frame
sequence numbers are exactly `1, 2, 3, …` with no gaps or repeats: both
loops, started from their initial state, keep their capture list equal
to `List.range' 1 frame_count`, whatever frames are skipped or which
fetches fail in between. -/
theorem C6_sequence (T : ℚ) (save live : Bool) (d : String)
    (evs : List ReadEvent) (sevs : List SnapEvent) :
    (contRun T save d contInit evs).captures.map Prod.fst
        = List.range' 1 (contRun T save d contInit evs).frame_count ∧
    (capture_snapshot_stream save live d snapInit sevs).captures
        = List.range' 1 (capture_snapshot_stream save live d snapInit sevs).frame_count :=
  ⟨contRun_seq_inv T save d evs contInit rfl, snap_seq_inv save live d sevs snapInit rfl⟩

theorem contRun_framesOnly (T : ℚ) (save : Bool) (d : String) :
    ∀ (ts : List ℚ) (s : ContState),
      (contRun T save d s (framesOnly ts)).captures.map Prod.snd
        = s.captures.map Prod.snd ++ specDecimate T s.last_capture_time ts := by
  intro ts
  induction ts with
  | nil => intro s; simp [framesOnly, contRun, specDecimate]
  | cons t rest ih =>
    intro s
    rw [show framesOnly (t :: rest) = ReadEvent.frame t "" false :: framesOnly rest from rfl]
    rw [show contRun T save d s (ReadEvent.frame t "" false :: framesOnly rest)
          = contRun T save d (contStep T save d { s with iterations := s.iterations + 1 } t "")
              (framesOnly rest) from rfl]
    rw [ih (contStep T save d { s with iterations := s.iterations + 1 } t "")]
    rw [specDecimate]
    by_cases hc : T ≤ t - s.last_capture_time
    · rw [if_pos hc]
      simp [contStep, hc]
    · rw [if_neg hc]
      simp [contStep, hc]

/-- C1 fails on the code as stated: `last_capture_time` is initialized
to `0` (line 46), so the first frame is captured only when its wall
timestamp is at least the interval.  With a single frame at synthetic
timestamp `10` and interval `30`, the stream yields a frame but the code
captures nothing, while the claim (first available frame is always
captured, hence at least one capture) expects `[10]`. -/
theorem C1_counterexample :
    (capture_stream "rtsp://h/live" 30 true true "S"
        ⟨false, true, framesOnly [10], []⟩).capturedTimes = [] ∧
    specCapturedTimes 30 [10] = [10] := by
  constructor
  · have hsnap : is_snapshot "rtsp://h/live" = false := by decide
    simp only [capture_stream, hsnap, Bool.false_eq_true, if_false, if_true,
      RunOutcome.capturedTimes]
    have h := contRun_framesOnly 30 true (output_folder "S") [10] contInit
    rw [h]
    norm_num [contInit, specDecimate]
  · rfl

/-- C1 (amended): provided the first frame's wall-clock timestamp is at
least the interval `T` — which always holds in practice, since
`last_capture_time` starts at `0` and `time.time()` is epoch seconds —
the frames captured by the continuous loop are exactly those whose
timestamp minus the timestamp of the previously captured frame is
`≥ T`, with the first frame captured. -/
theorem C1_amended (T : ℚ) (save : Bool) (d : String) (t0 : ℚ) (ts : List ℚ)
    (h : T ≤ t0) :
    (contRun T save d contInit (framesOnly (t0 :: ts))).captures.map Prod.snd
      = specCapturedTimes T (t0 :: ts) := by
  rw [contRun_framesOnly T save d (t0 :: ts) contInit]
  have h0 : T ≤ t0 - (0 : ℚ) := by simpa using h
  show List.map Prod.snd [] ++ specDecimate T 0 (t0 :: ts) = specCapturedTimes T (t0 :: ts)
  rw [specDecimate, if_pos h0, specCapturedTimes]
  simp

/-- Witness for C1 (amended) at a concrete input: interval 30 and
frames at 1000, 1010, 1040, the first of which satisfies the
hypothesis. -/
theorem C1_witness :
    (30 : ℚ) ≤ 1000 ∧
    (contRun 30 true "d" contInit (framesOnly [1000, 1010, 1040])).captures.map Prod.snd
      = specCapturedTimes 30 [1000, 1010, 1040] :=
  ⟨by norm_num, C1_amended 30 true "d" 1000 [1010, 1040] (by norm_num)⟩
